import Mathlib

/-!
Verification development for the dynamic-catalogue manager.

Shallow embedding of the repository's dynamic schema/column-type engine:
`ColumnDefinition` (src/gui/setup_wizard.py), the value-coercion routines
`_convert_value` (src/database/dynamic_database.py) and
`_convert_excel_value` (src/utils/dynamic_excel_handler.py), the schema
builder `_generate_table_sql` / `_get_sql_type`, the catalogue store
operations (`create_catalogue_structure`, `add_item`, `get_all_items`,
`update_item`, `search_items`), and the Excel column matcher from
`import_from_excel`.

Python runtime values are modelled by `PyVal`; Python floats are modelled
as exact rationals (no claim under consideration depends on rounding,
infinities or NaN payloads; an Excel NaN / Python None missing value is
modelled by `PyVal.vNone`).  Python's `int()` / `float()` string parsers
are modelled for the decimal-literal forms the repository exercises
(optional surrounding whitespace, optional sign, digits with an optional
single decimal point); Python additionally accepts exponents and
underscores, which no claim touches.
-/

namespace Catalogue

/-- A Python runtime value as it flows through the coercion routines. -/
inductive PyVal where
  | vNone : PyVal
  | vStr (s : String) : PyVal
  | vInt (n : Int) : PyVal
  | vFloat (q : Rat) : PyVal
  | vBool (b : Bool) : PyVal
deriving DecidableEq, Repr

/-- Python truthiness (`bool(value)`). -/
def PyVal.truthy : PyVal → Bool
  | PyVal.vNone => false
  | PyVal.vStr s => s ≠ ""
  | PyVal.vInt n => n ≠ 0
  | PyVal.vFloat q => q ≠ 0
  | PyVal.vBool b => b

/-- ASCII lower-casing of one character; models Python `str.lower` and
SQLite's ASCII-only LIKE folding on the ASCII inputs the claims use. -/
def charToLower (c : Char) : Char :=
  if 'A' ≤ c ∧ c ≤ 'Z' then Char.ofNat (c.toNat + 32) else c

/-- Lower-casing of a character list. -/
def lowerChars (cs : List Char) : List Char :=
  cs.map charToLower

/-- ASCII whitespace (the characters Python's strip removes in practice
here). -/
def isSpaceChar (c : Char) : Bool :=
  c = ' ' ∨ c = '\t' ∨ c = '\n' ∨ c = '\r'

/-- Strip leading and trailing whitespace (Python `str.strip()`). -/
def trimChars (cs : List Char) : List Char :=
  ((cs.dropWhile isSpaceChar).reverse.dropWhile isSpaceChar).reverse

/-- Value of a decimal digit run (`cs` assumed all digits; guarded by callers). -/
def digitsToNat (cs : List Char) : Nat :=
  cs.foldl (fun a c => a * 10 + (c.toNat - '0'.toNat)) 0

/-- Parse an unsigned decimal digit run; fails on empty input or a non-digit. -/
def parseDigits (cs : List Char) : Option Nat :=
  if cs ≠ [] ∧ cs.all Char.isDigit then some (digitsToNat cs) else none

/-- Core of Python `float(str)` after sign removal: `digits`, `digits.digits`,
`digits.` or `.digits` (at least one digit overall). -/
def pyParseFloatCore (cs : List Char) : Option Rat :=
  match cs.splitOn '.' with
  | [intPart] => (parseDigits intPart).map (fun n => (n : Rat))
  | [intPart, fracPart] =>
      if (intPart ≠ [] ∨ fracPart ≠ []) ∧ intPart.all Char.isDigit ∧
          fracPart.all Char.isDigit then
        some (mkRat (digitsToNat (intPart ++ fracPart)) (10 ^ fracPart.length))
      else none
  | _ => none

/-- Python `float(str)`: strip whitespace, optional sign, decimal literal. -/
def pyParseFloat (s : String) : Option Rat :=
  match trimChars s.data with
  | '+' :: rest => pyParseFloatCore rest
  | '-' :: rest => (pyParseFloatCore rest).map Neg.neg
  | cs => pyParseFloatCore cs

/-- Python `int(str)` (base 10): strip whitespace, optional sign, digits only —
in particular `int("3.0")` fails. -/
def pyParseInt (s : String) : Option Int :=
  match trimChars s.data with
  | '+' :: rest => (parseDigits rest).map Int.ofNat
  | '-' :: rest => (parseDigits rest).map (fun n => -(n : Int))
  | cs => (parseDigits cs).map Int.ofNat

/-- Truncation toward zero, the semantics of Python `int(float)`. -/
def pyTrunc (q : Rat) : Int :=
  if 0 ≤ q then q.floor else q.ceil

/-- Rendering of a rational; stands in for Python float `str()`.  Only
reachable through `pyStr` on float inputs, which no claim evaluates. -/
def ratRepr (q : Rat) : String :=
  toString q.num ++ "/" ++ toString q.den

/-- Python `str(value)`. -/
def pyStr : PyVal → String
  | PyVal.vNone => "None"
  | PyVal.vStr s => s
  | PyVal.vInt n => toString n
  | PyVal.vFloat q => ratRepr q
  | PyVal.vBool b => if b then "True" else "False"

/-- Python `int(value)`; `none` models a ValueError/TypeError. -/
def pyInt : PyVal → Option Int
  | PyVal.vNone => none
  | PyVal.vStr s => pyParseInt s
  | PyVal.vInt n => some n
  | PyVal.vFloat q => some (pyTrunc q)
  | PyVal.vBool b => some (if b then 1 else 0)

/-- Python `float(value)`; `none` models a ValueError/TypeError. -/
def pyFloat : PyVal → Option Rat
  | PyVal.vNone => none
  | PyVal.vStr s => pyParseFloat s
  | PyVal.vInt n => some (n : Rat)
  | PyVal.vFloat q => some q
  | PyVal.vBool b => some (if b then 1 else 0)

/-- Case-insensitive substring containment: Python `a.lower() in b.lower()`,
also SQLite `b LIKE '%a%'` on ASCII text. -/
def containsCI (hay pat : String) : Bool :=
  decide ((lowerChars pat.data).IsInfix (lowerChars hay.data))

/-- ColumnDefinition from src/gui/setup_wizard.py. -/
structure ColumnDefinition where
  name : String
  display_name : String
  data_type : String
  required : Bool
  default_value : String
deriving DecidableEq, Repr

/-- `DynamicDatabaseManager._convert_value` (src/database/dynamic_database.py
lines 345-373): `None`/`''` map to `None`; `number` uses `int(value)`,
`decimal` uses `float(value)`, `boolean` maps to 1/0, anything else is
stringified; a ValueError/TypeError returns the ORIGINAL value. -/
def convertValue (value : PyVal) (data_type : String) : PyVal :=
  if value = PyVal.vNone ∨ value = PyVal.vStr "" then PyVal.vNone
  else if data_type = "number" then
    match pyInt value with
    | some n => PyVal.vInt n
    | none => value
  else if data_type = "decimal" then
    match pyFloat value with
    | some q => PyVal.vFloat q
    | none => value
  else if data_type = "boolean" then
    match value with
    | PyVal.vBool b => PyVal.vInt (if b then 1 else 0)
    | PyVal.vStr s =>
        PyVal.vInt
          (if String.mk (lowerChars s.data) ∈ ["true", "1", "yes", "on"]
           then 1 else 0)
    | v => PyVal.vInt (if v.truthy then 1 else 0)
  else PyVal.vStr (pyStr value)

/-- `DynamicExcelHandler._get_default_for_type`
(src/utils/dynamic_excel_handler.py lines 323-339). -/
def getDefaultForType (data_type : String) : PyVal :=
  if data_type = "text" then PyVal.vStr ""
  else if data_type = "number" then PyVal.vInt 0
  else if data_type = "decimal" then PyVal.vFloat 0
  else if data_type = "date" then PyVal.vStr ""
  else if data_type = "boolean" then PyVal.vBool false
  else PyVal.vStr ""

/-- Python `column.default_value or self._get_default_for_type(...)`:
the declared default string when non-empty, else the type's zero value. -/
def defaultOr (column : ColumnDefinition) : PyVal :=
  if column.default_value ≠ "" then PyVal.vStr column.default_value
  else getDefaultForType column.data_type

/-- `DynamicExcelHandler._convert_excel_value`
(src/utils/dynamic_excel_handler.py lines 251-288): missing/empty input
yields the declared default or the type default; `number` goes through
`int(float(value))`, `decimal` through `float(value)`, `boolean` through
the five-token set; a ValueError/TypeError yields the declared default or
the type default.  A pandas Timestamp never arises in this model, so the
`date` branch reduces to `str(value)`. -/
def convertExcelValue (value : PyVal) (column : ColumnDefinition) : PyVal :=
  if value = PyVal.vNone ∨ value = PyVal.vStr "" then defaultOr column
  else if column.data_type = "number" then
    match pyFloat value with
    | some q => PyVal.vInt (pyTrunc q)
    | none => defaultOr column
  else if column.data_type = "decimal" then
    match pyFloat value with
    | some q => PyVal.vFloat q
    | none => defaultOr column
  else if column.data_type = "boolean" then
    match value with
    | PyVal.vBool b => PyVal.vBool b
    | PyVal.vStr s =>
        PyVal.vBool
          (decide (String.mk (lowerChars s.data) ∈
            ["true", "1", "yes", "on", "y"]))
    | v => PyVal.vBool v.truthy
  else if column.data_type = "date" then PyVal.vStr (pyStr value)
  else PyVal.vStr (String.mk (trimChars (pyStr value).data))

/-- First value bound to a key in an association list (Python dict lookup /
`key in dict` via `isSome`). -/
def listGet {α : Type} (m : List (String × α)) (k : String) : Option α :=
  (m.find? (fun p => p.1 = k)).map Prod.snd

/-- `DynamicDatabaseManager._get_sql_type`
(src/database/dynamic_database.py lines 116-132). -/
def getSqlType (data_type : String) : String :=
  if data_type = "text" then "TEXT"
  else if data_type = "number" then "INTEGER"
  else if data_type = "decimal" then "REAL"
  else if data_type = "date" then "TEXT"
  else if data_type = "boolean" then "INTEGER"
  else "TEXT"

/-- One column line of `_generate_table_sql`: the f-string
`"    {column.name} {sql_type} {null_constraint} {default_constraint},"`. -/
def columnSqlLine (column : ColumnDefinition) : String :=
  let sql_type := getSqlType column.data_type
  let null_constraint := if column.required then "NOT NULL" else ""
  let default_constraint :=
    if column.default_value ≠ "" then
      "DEFAULT '" ++ column.default_value ++ "'"
    else ""
  "    " ++ column.name ++ " " ++ sql_type ++ " " ++ null_constraint ++ " " ++
    default_constraint ++ ","

/-- The `sql_parts` list built by `_generate_table_sql`
(src/database/dynamic_database.py lines 90-114). -/
def generateTableSqlLines (columns : List ColumnDefinition) : List String :=
  ["CREATE TABLE catalogue_items (",
   "    id INTEGER PRIMARY KEY AUTOINCREMENT,"] ++
  columns.map columnSqlLine ++
  ["    created_date TEXT,", "    modified_date TEXT", ")"]

/-- `DynamicDatabaseManager._generate_table_sql`: the joined statement. -/
def generateTableSql (columns : List ColumnDefinition) : String :=
  String.intercalate "\n" (generateTableSqlLines columns)

/-- The active catalogue configuration (name + ordered column list). -/
structure CatalogueConfig where
  name : String
  columns : List ColumnDefinition
deriving DecidableEq, Repr

/-- One row of the `catalogue_items` table: surrogate id, one stored value
per column name, and the two audit timestamp columns. -/
structure Row where
  id : Int
  values : List (String × PyVal)
  created_date : String
  modified_date : String
deriving DecidableEq, Repr

/-- The observable state of a `DynamicDatabaseManager`: the active
configuration (None before any structure exists) and the `catalogue_items`
table.  `nextId` is the AUTOINCREMENT counter; rows are kept in id order,
which `ORDER BY id` preserves.  The embedded database engine itself is an
out-of-scope external collaborator, so its own constraint enforcement
(e.g. NOT NULL violations) is not modelled; no claim exercises it. -/
structure DBState where
  catalogue_config : Option CatalogueConfig
  items : List Row
  nextId : Int
deriving DecidableEq, Repr

/-- `DynamicDatabaseManager.create_catalogue_structure`
(src/database/dynamic_database.py lines 50-88): stores the configuration
(INSERT OR REPLACE of the singleton row), drops the `catalogue_items`
table, and recreates it by executing the statement built by
`_generate_table_sql`; dropping the table resets the AUTOINCREMENT
sequence.  `cursor.execute(table_sql)` hands the interpolated statement to
the external database engine, which may reject it (e.g. an unescaped
single quote from a default value, or a reserved-word column name); its
verdict on the statement enters the model as the `engineAccepts`
parameter.  When execution raises, the blanket handler returns False, the
connection context rolls the INSERT and DROP back, and
`self.catalogue_config` is not assigned — the prior configuration and all
prior rows survive unchanged. -/
def createCatalogueStructure (engineAccepts : String → Bool) (s : DBState)
    (config : CatalogueConfig) : Bool × DBState :=
  if engineAccepts (generateTableSql config.columns) then
    (true, { catalogue_config := some config, items := [], nextId := 1 })
  else (false, s)

/-- A sound under-approximation of the engine's rejection of a generated
statement, used to instantiate `engineAccepts`: in the generated dialect a
single quote (code point 39) appears only as a string-literal delimiter or
doubled as the escape, so every statement the engine accepts contains an
EVEN number of single-quote characters; a statement with an odd count — as
produced when a default value embeds one unescaped quote — is certainly
rejected.  Statements this verdict accepts may still be rejected by the
real engine (e.g. reserved-word column names), so only its rejections are
relied on. -/
def quoteBalancedVerdict (stmt : String) : Bool :=
  decide ((stmt.data.filter (fun c => c.toNat = 39)).length % 2 = 0)

/-- A user-typed default value containing an apostrophe (code point 39):
the name OBrien with the quote between O and B. -/
def quotedDefault : String :=
  String.mk ['O', Char.ofNat 39, 'B', 'r', 'i', 'e', 'n']

/-- `DynamicDatabaseManager.add_item`
(src/database/dynamic_database.py lines 161-196): raises when no
configuration is loaded; otherwise for each defined column takes
`item_data.get(col.name, col.default_value)`, converts it, stamps both
timestamps with the same `now`, inserts, and returns the new rowid. -/
def addItem (s : DBState) (item_data : List (String × PyVal)) (now : String) :
    Except String (Int × DBState) :=
  match s.catalogue_config with
  | none => Except.error "No catalogue structure defined"
  | some config =>
      let vals := config.columns.map (fun col =>
        (col.name,
         convertValue ((listGet item_data col.name).getD
            (PyVal.vStr col.default_value)) col.data_type))
      let row : Row :=
        { id := s.nextId, values := vals, created_date := now,
          modified_date := now }
      Except.ok (s.nextId,
        { s with items := s.items ++ [row], nextId := s.nextId + 1 })

/-- `DynamicDatabaseManager.get_all_items`
(src/database/dynamic_database.py lines 198-214): empty when no
configuration is loaded, else every row in id order. -/
def getAllItems (s : DBState) : List Row :=
  match s.catalogue_config with
  | none => []
  | some _ => s.items

/-- The names of the text-typed columns, as `search_items` computes them. -/
def textColumnNames (config : CatalogueConfig) : List String :=
  (config.columns.filter (fun col => col.data_type = "text")).map
    (fun col => col.name)

/-- SQLite `col LIKE '%term%'`: NULL never matches; otherwise ASCII
case-insensitive substring containment on the stored text. -/
def sqlLikeContains (v : PyVal) (term : String) : Bool :=
  match v with
  | PyVal.vNone => false
  | v => containsCI (pyStr v) term

/-- `DynamicDatabaseManager.search_items`
(src/database/dynamic_database.py lines 287-321): empty when no
configuration is loaded or when the configuration has no text column;
otherwise the rows where some text column is LIKE `'%term%'`. -/
def searchItems (s : DBState) (term : String) : List Row :=
  match s.catalogue_config with
  | none => []
  | some config =>
      let text_columns := textColumnNames config
      if text_columns.isEmpty then []
      else s.items.filter (fun row =>
        text_columns.any (fun cn =>
          sqlLikeContains ((listGet row.values cn).getD PyVal.vNone) term))

/-- The SET list built by `update_item`: for each defined column whose name
is a key of `item_data`, the converted value. -/
def updateSets (columns : List ColumnDefinition)
    (item_data : List (String × PyVal)) : List (String × PyVal) :=
  columns.filterMap (fun col =>
    (listGet item_data col.name).map (fun raw =>
      (col.name, convertValue raw col.data_type)))

/-- Application of the SET list to one row's stored values. -/
def setValues (sets : List (String × PyVal))
    (vals : List (String × PyVal)) : List (String × PyVal) :=
  vals.map (fun kv =>
    match listGet sets kv.1 with
    | some w => (kv.1, w)
    | none => kv)

/-- `DynamicDatabaseManager.update_item`
(src/database/dynamic_database.py lines 234-271): False when no
configuration is loaded; otherwise sets each supplied defined column to
its converted value and `modified_date` to `now` on every row whose id
matches, and returns whether any row matched. -/
def updateItem (s : DBState) (item_id : Int)
    (item_data : List (String × PyVal)) (now : String) : Bool × DBState :=
  match s.catalogue_config with
  | none => (false, s)
  | some config =>
      let sets := updateSets config.columns item_data
      let newItems := s.items.map (fun row =>
        if row.id = item_id then
          { row with values := setValues sets row.values,
                     modified_date := now }
        else row)
      (s.items.any (fun row => row.id = item_id),
       { s with items := newItems })

/-- Case-insensitive exact header scan from `import_from_excel`
(src/utils/dynamic_excel_handler.py lines 52-56): the first Excel column
equal to the definition's display name, ignoring case. -/
def findExact (excelCols : List String) (column : ColumnDefinition) :
    Option String :=
  excelCols.find? (fun ec =>
    lowerChars ec.data = lowerChars column.display_name.data)

/-- Substring fallback scan from `import_from_excel` (lines 60-65): the
first Excel column containing, or contained in, the display name,
ignoring case. -/
def findPartial (excelCols : List String) (column : ColumnDefinition) :
    Option String :=
  excelCols.find? (fun ec =>
    containsCI ec column.display_name ∨ containsCI column.display_name ec)

/-- The header `import_from_excel` pairs with a Column Definition: exact
scan first, substring scan second, first hit wins. -/
def matchedHeader (excelCols : List String) (column : ColumnDefinition) :
    Option String :=
  match findExact excelCols column with
  | some ec => some ec
  | none => findPartial excelCols column

/-- Python dict assignment `d[k] = v` on an insertion-ordered dict: the
existing entry for `k` is overwritten in place, a new key is appended. -/
def dictInsert (m : List (String × String)) (k v : String) :
    List (String × String) :=
  if m.any (fun p => p.1 = k) then
    m.map (fun p => if p.1 = k then (k, v) else p)
  else m ++ [(k, v)]

/-- One iteration of the column-matching loop: bind the matched header in
`column_mapping` (a dict keyed by the EXCEL header), else record the
display name as unmapped. -/
def mappingStep (excelCols : List String)
    (acc : List (String × String) × List String)
    (column : ColumnDefinition) : List (String × String) × List String :=
  match matchedHeader excelCols column with
  | some ec => (dictInsert acc.1 ec column.name, acc.2)
  | none => (acc.1, acc.2 ++ [column.display_name])

/-- The column-matching loop of `DynamicExcelHandler.import_from_excel`
(src/utils/dynamic_excel_handler.py lines 44-68): per Column Definition in
order, run `mappingStep`. -/
def buildColumnMapping (excelCols : List String)
    (columns : List ColumnDefinition) :
    List (String × String) × List String :=
  columns.foldl (mappingStep excelCols) ([], [])

/-! Helper lemmas about the coercion routines. -/

theorem containsCI_empty_pat (s : String) : containsCI s "" = true := by
  unfold containsCI
  simp only [show lowerChars ("" : String).data = [] from rfl,
    decide_eq_true_eq]
  exact List.nil_infix

theorem sqlLikeContains_empty (v : PyVal) :
    sqlLikeContains v "" = decide (v ≠ PyVal.vNone) := by
  cases v <;> simp [sqlLikeContains, containsCI_empty_pat]

theorem convertValue_null (v : PyVal) (h : v = PyVal.vNone ∨ v = PyVal.vStr "")
    (dt : String) : convertValue v dt = PyVal.vNone := by
  unfold convertValue
  rw [if_pos h]

theorem convertValue_number (v : PyVal) (h1 : v ≠ PyVal.vNone)
    (h2 : v ≠ PyVal.vStr "") :
    convertValue v "number" =
      (match pyInt v with
       | some n => PyVal.vInt n
       | none => v) := by
  unfold convertValue
  rw [if_neg (by rintro (rfl | rfl) <;> simp_all), if_pos rfl]

theorem convertValue_decimal (v : PyVal) (h1 : v ≠ PyVal.vNone)
    (h2 : v ≠ PyVal.vStr "") :
    convertValue v "decimal" =
      (match pyFloat v with
       | some q => PyVal.vFloat q
       | none => v) := by
  unfold convertValue
  rw [if_neg (by rintro (rfl | rfl) <;> simp_all),
    if_neg (by decide), if_pos rfl]

theorem convertValue_boolean (v : PyVal) (h1 : v ≠ PyVal.vNone)
    (h2 : v ≠ PyVal.vStr "") :
    convertValue v "boolean" =
      (match v with
       | PyVal.vBool b => PyVal.vInt (if b then 1 else 0)
       | PyVal.vStr s =>
           PyVal.vInt
             (if String.mk (lowerChars s.data) ∈ ["true", "1", "yes", "on"]
              then 1 else 0)
       | v => PyVal.vInt (if v.truthy then 1 else 0)) := by
  unfold convertValue
  rw [if_neg (by rintro (rfl | rfl) <;> simp_all),
    if_neg (by decide), if_neg (by decide), if_pos rfl]
  cases v <;> rfl

theorem convertExcelValue_null (v : PyVal)
    (h : v = PyVal.vNone ∨ v = PyVal.vStr "") (col : ColumnDefinition) :
    convertExcelValue v col = defaultOr col := by
  unfold convertExcelValue
  rw [if_pos h]

theorem convertExcelValue_number (v : PyVal) (col : ColumnDefinition)
    (hdt : col.data_type = "number") (h1 : v ≠ PyVal.vNone)
    (h2 : v ≠ PyVal.vStr "") :
    convertExcelValue v col =
      (match pyFloat v with
       | some q => PyVal.vInt (pyTrunc q)
       | none => defaultOr col) := by
  unfold convertExcelValue
  rw [if_neg (by rintro (rfl | rfl) <;> simp_all), if_pos hdt]

theorem convertExcelValue_decimal (v : PyVal) (col : ColumnDefinition)
    (hdt : col.data_type = "decimal") (h1 : v ≠ PyVal.vNone)
    (h2 : v ≠ PyVal.vStr "") :
    convertExcelValue v col =
      (match pyFloat v with
       | some q => PyVal.vFloat q
       | none => defaultOr col) := by
  unfold convertExcelValue
  rw [if_neg (by rintro (rfl | rfl) <;> simp_all),
    if_neg (by rw [hdt]; decide), if_pos hdt]

theorem convertExcelValue_boolean (v : PyVal) (col : ColumnDefinition)
    (hdt : col.data_type = "boolean") (h1 : v ≠ PyVal.vNone)
    (h2 : v ≠ PyVal.vStr "") :
    convertExcelValue v col =
      (match v with
       | PyVal.vBool b => PyVal.vBool b
       | PyVal.vStr s =>
           PyVal.vBool
             (decide (String.mk (lowerChars s.data) ∈
               ["true", "1", "yes", "on", "y"]))
       | v => PyVal.vBool v.truthy) := by
  unfold convertExcelValue
  rw [if_neg (by rintro (rfl | rfl) <;> simp_all),
    if_neg (by rw [hdt]; decide), if_neg (by rw [hdt]; decide), if_pos hdt]
  cases v <;> rfl

/-! Claim C1. -/

/-- Claim C1 counterexample: on the store's coercion path, the unparseable
decimal input `"abc"` is returned as the ORIGINAL unconverted value — not
`0.0` and not a default — refuting "any input that cannot be converted
... yields the column's declared default or a type-appropriate zero value
(in particular, for decimal columns an unparseable input yields 0.0),
never the original unconverted value". -/
theorem claimC1_counterexample :
    convertValue (PyVal.vStr "abc") "decimal" = PyVal.vStr "abc" ∧
    convertValue (PyVal.vStr "abc") "decimal" ≠ PyVal.vFloat 0 := by
  decide

/-- Claim C1 (amended): coercion never raises, but the two paths degrade
differently on unconvertible input: the import path
(`_convert_excel_value`) yields the column's declared default or the
type-appropriate zero value, while the store path (`_convert_value`)
returns the original unconverted value. -/
theorem claimC1_amended (v : PyVal) (col : ColumnDefinition)
    (h1 : v ≠ PyVal.vNone) (h2 : v ≠ PyVal.vStr "") :
    (pyInt v = none → convertValue v "number" = v) ∧
    (pyFloat v = none → convertValue v "decimal" = v) ∧
    (col.data_type = "number" → pyFloat v = none →
      convertExcelValue v col = defaultOr col) ∧
    (col.data_type = "decimal" → pyFloat v = none →
      convertExcelValue v col = defaultOr col) := by
  refine ⟨fun h => ?_, fun h => ?_, fun hdt h => ?_, fun hdt h => ?_⟩
  · rw [convertValue_number v h1 h2, h]
  · rw [convertValue_decimal v h1 h2, h]
  · rw [convertExcelValue_number v col hdt h1 h2, h]
  · rw [convertExcelValue_decimal v col hdt h1 h2, h]

/-- Claim C1 witness: the amended statement instantiated at the
unparseable input `"abc"` for a default-free decimal column. -/
theorem claimC1_witness :
    convertValue (PyVal.vStr "abc") "decimal" = PyVal.vStr "abc" ∧
    convertExcelValue (PyVal.vStr "abc")
      ⟨"price", "Price", "decimal", false, ""⟩ =
      defaultOr ⟨"price", "Price", "decimal", false, ""⟩ :=
  ⟨(claimC1_amended (PyVal.vStr "abc")
      ⟨"price", "Price", "decimal", false, ""⟩ (by decide) (by decide)).2.1
      (by decide),
   (claimC1_amended (PyVal.vStr "abc")
      ⟨"price", "Price", "decimal", false, ""⟩ (by decide) (by decide)).2.2.2
      rfl (by decide)⟩

/-! Claim C2. -/

/-- Claim C2 counterexample: the store path's integer coercion applies
Python `int()` directly, with no floating-point intermediate: `"3.0"`
fails to parse and is returned unconverted (not 3), and the empty string
yields None rather than the declared default or 0. -/
theorem claimC2_counterexample :
    convertValue (PyVal.vStr "3.0") "number" = PyVal.vStr "3.0" ∧
    convertValue (PyVal.vStr "3.0") "number" ≠ PyVal.vInt 3 ∧
    convertValue (PyVal.vStr "") "number" = PyVal.vNone := by
  decide

/-- Claim C2 (amended): on the IMPORT path, integer coercion parses via a
floating-point intermediate and truncates (so any parseable input — in
particular `"3.0"` — maps to its truncation), and the empty string yields
the column's declared default or 0; on the store path `"3.0"` is returned
unconverted and the empty string yields None. -/
theorem claimC2_amended (col : ColumnDefinition) (v : PyVal) (q : Rat)
    (hdt : col.data_type = "number") :
    (v ≠ PyVal.vNone → v ≠ PyVal.vStr "" → pyFloat v = some q →
      convertExcelValue v col = PyVal.vInt (pyTrunc q)) ∧
    convertExcelValue (PyVal.vStr "") col = defaultOr col ∧
    (col.default_value = "" →
      convertExcelValue (PyVal.vStr "") col = PyVal.vInt 0) ∧
    convertValue (PyVal.vStr "3.0") "number" = PyVal.vStr "3.0" ∧
    convertValue (PyVal.vStr "") "number" = PyVal.vNone := by
  refine ⟨fun h1 h2 h => ?_, convertExcelValue_null _ (Or.inr rfl) col,
    fun hdv => ?_, by decide, by decide⟩
  · rw [convertExcelValue_number v col hdt h1 h2, h]
  · rw [convertExcelValue_null _ (Or.inr rfl) col]
    unfold defaultOr getDefaultForType
    rw [if_neg (by simp [hdv]), if_neg (by rw [hdt]; decide), if_pos hdt]

/-- Claim C2 witness: the amended statement instantiated at `"3.0"` for a
default-free integer column, evaluating to 3. -/
theorem claimC2_witness :
    convertExcelValue (PyVal.vStr "3.0")
      ⟨"qty", "Qty", "number", false, ""⟩ = PyVal.vInt (pyTrunc 3) ∧
    convertExcelValue (PyVal.vStr "")
      ⟨"qty", "Qty", "number", false, ""⟩ = PyVal.vInt 0 :=
  ⟨(claimC2_amended ⟨"qty", "Qty", "number", false, ""⟩
      (PyVal.vStr "3.0") 3 rfl).1 (by decide) (by decide) (by decide),
   (claimC2_amended ⟨"qty", "Qty", "number", false, ""⟩
      (PyVal.vStr "3.0") 3 rfl).2.2.1 rfl⟩

/-! Claim C6. -/

/-- The truthiness the claim ascribes to boolean coercion: a string is
truthy exactly when its lower-casing is a recognized token (`"y"` added on
the import path); a non-string is truthy exactly when natively truthy. -/
def boolTruthySpec (v : PyVal) (importPath : Bool) : Bool :=
  match v with
  | PyVal.vStr s =>
      decide (String.mk (lowerChars s.data) ∈
        (if importPath then ["true", "1", "yes", "on", "y"]
         else ["true", "1", "yes", "on"]))
  | v => v.truthy

theorem truthy_ite (c : Bool) :
    (PyVal.vInt (if c then 1 else 0)).truthy = c := by
  cases c <;> rfl

/-- Claim C6 counterexample: for a boolean column whose declared default is
the non-empty string `"false"`, the import path coerces the empty string to
that default string, a TRUTHY value, although `""` neither lowercases to a
recognized token nor is a native truthy value — refuting "every other
input coerces to falsy". -/
theorem claimC6_counterexample :
    convertExcelValue (PyVal.vStr "")
      ⟨"ok", "OK", "boolean", false, "false"⟩ = PyVal.vStr "false" ∧
    (PyVal.vStr "false").truthy = true ∧
    boolTruthySpec (PyVal.vStr "") true = false := by
  decide

/-- Claim C6 (amended): boolean coercion is truthy iff the input lowercases
to a recognized token or is a native non-string truthy value — on the
store path for every input, and on the import path for every input that is
neither missing nor the empty string; a missing or empty import input
instead yields the declared default string when non-empty (a truthy value
regardless of its spelling), else False. -/
theorem claimC6_amended (v : PyVal) (col : ColumnDefinition)
    (hdt : col.data_type = "boolean") :
    (convertValue v "boolean").truthy = boolTruthySpec v false ∧
    (v ≠ PyVal.vNone → v ≠ PyVal.vStr "" →
      (convertExcelValue v col).truthy = boolTruthySpec v true) ∧
    ((v = PyVal.vNone ∨ v = PyVal.vStr "") →
      convertExcelValue v col = defaultOr col) := by
  refine ⟨?_, fun h1 h2 => ?_, fun h => convertExcelValue_null v h col⟩
  · cases v with
    | vNone => rw [convertValue_null _ (Or.inl rfl)]; rfl
    | vStr s =>
        by_cases hs : s = ""
        · subst hs
          rw [convertValue_null _ (Or.inr rfl)]
          decide
        · rw [convertValue_boolean _ (by simp) (by simp [hs])]
          by_cases hm : String.mk (lowerChars s.data) ∈ ["true", "1", "yes", "on"]
          · simp [boolTruthySpec, hm, PyVal.truthy]
          · simp [boolTruthySpec, hm, PyVal.truthy]
    | vInt n => rw [convertValue_boolean _ (by simp) (by simp), truthy_ite]; rfl
    | vFloat q => rw [convertValue_boolean _ (by simp) (by simp), truthy_ite]; rfl
    | vBool b =>
        rw [convertValue_boolean _ (by simp) (by simp)]
        cases b <;> rfl
  · rw [convertExcelValue_boolean v col hdt h1 h2]
    cases v <;> rfl

/-- Claim C6 witness: the amended statement instantiated at the string
`"Yes"` for a default-free boolean column on the import path. -/
theorem claimC6_witness :
    (convertExcelValue (PyVal.vStr "Yes")
      ⟨"ok", "OK", "boolean", false, ""⟩).truthy =
      boolTruthySpec (PyVal.vStr "Yes") true :=
  (claimC6_amended (PyVal.vStr "Yes")
    ⟨"ok", "OK", "boolean", false, ""⟩ rfl).2.1 (by decide) (by decide)

/-! Claim C10. -/

theorem listGet_cons {α : Type} (p : String × α) (m : List (String × α))
    (k : String) :
    listGet (p :: m) k = if p.1 = k then some p.2 else listGet m k := by
  by_cases h : p.1 = k <;> simp [listGet, List.find?_cons, h]

theorem listGet_map_name {β : Type} (columns : List ColumnDefinition)
    (g : ColumnDefinition → β) (col : ColumnDefinition)
    (hmem : col ∈ columns)
    (hnd : (columns.map (fun c => c.name)).Nodup) :
    listGet (columns.map (fun c => (c.name, g c))) col.name = some (g col) := by
  induction columns with
  | nil => cases hmem
  | cons c tl ih =>
      rw [List.map_cons, listGet_cons]
      simp only [List.map_cons] at hnd
      have hnd' := List.nodup_cons.mp hnd
      rcases List.mem_cons.mp hmem with rfl | hmem'
      · rw [if_pos rfl]
      · have hne : c.name ≠ col.name := by
          intro h
          exact hnd'.1 (h ▸ List.mem_map_of_mem (fun x => x.name) hmem')
        rw [if_neg hne]
        exact ih hmem' hnd'.2

/-- Claim C10: for every logical type, the store-path coercion of None or
of the empty string yields None; consequently `add_item` on an input
missing a column whose declared default is empty stores SQL NULL (None)
for that column, not a type-appropriate zero. -/
theorem claimC10_theorem :
    (∀ dt : String, convertValue PyVal.vNone dt = PyVal.vNone ∧
       convertValue (PyVal.vStr "") dt = PyVal.vNone) ∧
    (∀ (s : DBState) (config : CatalogueConfig) (col : ColumnDefinition)
       (item_data : List (String × PyVal)) (now : String) (rid : Int)
       (s' : DBState),
       s.catalogue_config = some config → col ∈ config.columns →
       (config.columns.map (fun c => c.name)).Nodup →
       col.default_value = "" → listGet item_data col.name = none →
       addItem s item_data now = Except.ok (rid, s') →
       ∃ row : Row, s'.items.getLast? = some row ∧
         listGet row.values col.name = some PyVal.vNone) := by
  constructor
  · exact fun dt => ⟨convertValue_null _ (Or.inl rfl) dt,
      convertValue_null _ (Or.inr rfl) dt⟩
  · intro s config col item_data now rid s' hcfg hmem hnd hdv hget hadd
    unfold addItem at hadd
    rw [hcfg] at hadd
    simp only [Except.ok.injEq, Prod.mk.injEq] at hadd
    obtain ⟨-, rfl⟩ := hadd
    refine ⟨_, List.getLast?_concat _, ?_⟩
    rw [listGet_map_name config.columns _ col hmem hnd, hget]
    simp only [Option.getD_none, hdv]
    rw [convertValue_null _ (Or.inr rfl)]

/-- Claim C10 witness: adding an item that omits the default-free integer
column `qty` stores None (SQL NULL) for `qty`. -/
theorem claimC10_witness :
    ∃ row : Row,
      (DBState.mk
        (some ⟨"cat", [⟨"name", "Name", "text", true, ""⟩,
                       ⟨"qty", "Qty", "number", false, ""⟩]⟩)
        [Row.mk 1 [("name", PyVal.vStr "Bolt"), ("qty", PyVal.vNone)]
          "T" "T"] 2).items.getLast? = some row ∧
      listGet row.values "qty" = some PyVal.vNone :=
  claimC10_theorem.2
    ⟨some ⟨"cat", [⟨"name", "Name", "text", true, ""⟩,
                   ⟨"qty", "Qty", "number", false, ""⟩]⟩, [], 1⟩
    ⟨"cat", [⟨"name", "Name", "text", true, ""⟩,
             ⟨"qty", "Qty", "number", false, ""⟩]⟩
    ⟨"qty", "Qty", "number", false, ""⟩
    [("name", PyVal.vStr "Bolt")] "T" 1
    ⟨some ⟨"cat", [⟨"name", "Name", "text", true, ""⟩,
                   ⟨"qty", "Qty", "number", false, ""⟩]⟩,
     [⟨1, [("name", PyVal.vStr "Bolt"), ("qty", PyVal.vNone)], "T", "T"⟩], 2⟩
    rfl (by decide) (by decide) rfl (by decide) rfl

/-! Claim C5. -/

/-- Claim C5: `add_item` fails (raises) in the Unconfigured state; in the
Configured state it coerces every defined column's value, substitutes the
column's declared default for every missing key, stamps both timestamps to
the same "now", and returns the store's newly assigned surrogate id. -/
theorem claimC5_theorem (s : DBState) (item_data : List (String × PyVal))
    (now : String) :
    (s.catalogue_config = none →
      addItem s item_data now = Except.error "No catalogue structure defined") ∧
    (∀ config : CatalogueConfig, s.catalogue_config = some config →
      addItem s item_data now = Except.ok (s.nextId,
        { catalogue_config := s.catalogue_config,
          items := s.items ++
            [{ id := s.nextId,
               values := config.columns.map (fun col =>
                 (col.name,
                  convertValue
                    ((listGet item_data col.name).getD
                      (PyVal.vStr col.default_value)) col.data_type)),
               created_date := now, modified_date := now }],
          nextId := s.nextId + 1 })) ∧
    (∀ (col : ColumnDefinition), listGet item_data col.name = none →
      (listGet item_data col.name).getD (PyVal.vStr col.default_value) =
        PyVal.vStr col.default_value) := by
  refine ⟨?_, ?_, ?_⟩
  · intro h
    unfold addItem
    rw [h]
  · intro config h
    unfold addItem
    rw [h]
  · intro col h
    rw [h]
    rfl

/-- Claim C5 witness: adding `{name: "Bolt"}` to a configured two-column
store yields id 1, the coerced name, the default-free missing `qty` as
None, and both timestamps "T"; the unconfigured store fails. -/
theorem claimC5_witness :
    addItem
      ⟨some ⟨"cat", [⟨"name", "Name", "text", true, ""⟩,
                     ⟨"qty", "Qty", "number", false, ""⟩]⟩, [], 1⟩
      [("name", PyVal.vStr "Bolt")] "T" =
      Except.ok (1,
        ⟨some ⟨"cat", [⟨"name", "Name", "text", true, ""⟩,
                       ⟨"qty", "Qty", "number", false, ""⟩]⟩,
         [⟨1, [("name", PyVal.vStr "Bolt"), ("qty", PyVal.vNone)], "T", "T"⟩],
         2⟩) ∧
    addItem ⟨none, [], 1⟩ [("name", PyVal.vStr "Bolt")] "T" =
      Except.error "No catalogue structure defined" :=
  ⟨((claimC5_theorem
      ⟨some ⟨"cat", [⟨"name", "Name", "text", true, ""⟩,
                     ⟨"qty", "Qty", "number", false, ""⟩]⟩, [], 1⟩
      [("name", PyVal.vStr "Bolt")] "T").2.1
      ⟨"cat", [⟨"name", "Name", "text", true, ""⟩,
               ⟨"qty", "Qty", "number", false, ""⟩]⟩ rfl).trans rfl,
   (claimC5_theorem ⟨none, [], 1⟩ [("name", PyVal.vStr "Bolt")] "T").1 rfl⟩

/-! Claim C9. -/

/-- Claim C9 counterexample: a spec-valid configuration whose text column
declares the default value OBrien-with-an-apostrophe generates
`DEFAULT ...` with an ODD number of quote characters, so the engine
rejects the statement (traced on the source: `cursor.execute(table_sql)`
raises an OperationalError, the blanket handler returns False, and the
connection context rolls back the INSERT and DROP).  The call returns
False and the prior configuration and row survive untouched: the store is
neither Configured with the new configuration nor left with an empty row
table, refuting the claimed unconditional destructive idempotence. -/
theorem claimC9_counterexample :
    (createCatalogueStructure quoteBalancedVerdict
      ⟨some ⟨"old", [⟨"name", "Name", "text", true, ""⟩]⟩,
       [⟨1, [("name", PyVal.vStr "Bolt")], "t", "t"⟩], 2⟩
      ⟨"cat", [⟨"contact", "Contact", "text", false, quotedDefault⟩]⟩).1 =
      false ∧
    (createCatalogueStructure quoteBalancedVerdict
      ⟨some ⟨"old", [⟨"name", "Name", "text", true, ""⟩]⟩,
       [⟨1, [("name", PyVal.vStr "Bolt")], "t", "t"⟩], 2⟩
      ⟨"cat", [⟨"contact", "Contact", "text", false, quotedDefault⟩]⟩).2 =
      ⟨some ⟨"old", [⟨"name", "Name", "text", true, ""⟩]⟩,
       [⟨1, [("name", PyVal.vStr "Bolt")], "t", "t"⟩], 2⟩ ∧
    (createCatalogueStructure quoteBalancedVerdict
      ⟨some ⟨"old", [⟨"name", "Name", "text", true, ""⟩]⟩,
       [⟨1, [("name", PyVal.vStr "Bolt")], "t", "t"⟩], 2⟩
      ⟨"cat", [⟨"contact", "Contact", "text", false, quotedDefault⟩]⟩).2.items
      ≠ [] := by
  decide

/-- Claim C9 (amended): the destructive idempotence holds exactly for the
configurations whose generated data-definition statement the engine
accepts — two consecutive calls with such a configuration each leave the
store Configured with it and an empty row table, whatever rows existed,
and the second state equals the first; when the engine rejects the
statement, the call returns False and the prior configuration and rows
survive unchanged. -/
theorem claimC9_amended (engineAccepts : String → Bool) (s : DBState)
    (config : CatalogueConfig) :
    (engineAccepts (generateTableSql config.columns) = true →
      (createCatalogueStructure engineAccepts s config).1 = true ∧
      ((createCatalogueStructure engineAccepts s config).2).catalogue_config =
        some config ∧
      ((createCatalogueStructure engineAccepts s config).2).items = [] ∧
      (createCatalogueStructure engineAccepts
        (createCatalogueStructure engineAccepts s config).2 config).1 =
        true ∧
      (createCatalogueStructure engineAccepts
        (createCatalogueStructure engineAccepts s config).2 config).2 =
        (createCatalogueStructure engineAccepts s config).2) ∧
    (engineAccepts (generateTableSql config.columns) = false →
      (createCatalogueStructure engineAccepts s config).1 = false ∧
      (createCatalogueStructure engineAccepts s config).2 = s) := by
  constructor
  · intro h
    simp only [createCatalogueStructure, h]
    exact ⟨rfl, rfl, rfl, rfl, rfl⟩
  · intro h
    simp only [createCatalogueStructure, h]
    exact ⟨rfl, rfl⟩

/-- Claim C9 witness: the amended statement instantiated at a plain
quote-free configuration (whose generated statement the quote verdict
accepts) over a store holding an older configuration and one row: both
calls succeed, the new configuration is installed, and the row table is
emptied both times. -/
theorem claimC9_witness :
    (createCatalogueStructure quoteBalancedVerdict
      ⟨some ⟨"old", [⟨"sku", "Sku", "text", true, ""⟩]⟩,
       [⟨1, [("sku", PyVal.vStr "B7")], "t", "t"⟩], 2⟩
      ⟨"cat", [⟨"name", "Name", "text", true, ""⟩]⟩).1 = true ∧
    ((createCatalogueStructure quoteBalancedVerdict
      ⟨some ⟨"old", [⟨"sku", "Sku", "text", true, ""⟩]⟩,
       [⟨1, [("sku", PyVal.vStr "B7")], "t", "t"⟩], 2⟩
      ⟨"cat", [⟨"name", "Name", "text", true, ""⟩]⟩).2).catalogue_config =
      some ⟨"cat", [⟨"name", "Name", "text", true, ""⟩]⟩ ∧
    ((createCatalogueStructure quoteBalancedVerdict
      ⟨some ⟨"old", [⟨"sku", "Sku", "text", true, ""⟩]⟩,
       [⟨1, [("sku", PyVal.vStr "B7")], "t", "t"⟩], 2⟩
      ⟨"cat", [⟨"name", "Name", "text", true, ""⟩]⟩).2).items = [] ∧
    (createCatalogueStructure quoteBalancedVerdict
      (createCatalogueStructure quoteBalancedVerdict
        ⟨some ⟨"old", [⟨"sku", "Sku", "text", true, ""⟩]⟩,
         [⟨1, [("sku", PyVal.vStr "B7")], "t", "t"⟩], 2⟩
        ⟨"cat", [⟨"name", "Name", "text", true, ""⟩]⟩).2
      ⟨"cat", [⟨"name", "Name", "text", true, ""⟩]⟩).1 = true ∧
    (createCatalogueStructure quoteBalancedVerdict
      (createCatalogueStructure quoteBalancedVerdict
        ⟨some ⟨"old", [⟨"sku", "Sku", "text", true, ""⟩]⟩,
         [⟨1, [("sku", PyVal.vStr "B7")], "t", "t"⟩], 2⟩
        ⟨"cat", [⟨"name", "Name", "text", true, ""⟩]⟩).2
      ⟨"cat", [⟨"name", "Name", "text", true, ""⟩]⟩).2 =
      (createCatalogueStructure quoteBalancedVerdict
        ⟨some ⟨"old", [⟨"sku", "Sku", "text", true, ""⟩]⟩,
         [⟨1, [("sku", PyVal.vStr "B7")], "t", "t"⟩], 2⟩
        ⟨"cat", [⟨"name", "Name", "text", true, ""⟩]⟩).2 :=
  (claimC9_amended quoteBalancedVerdict
    ⟨some ⟨"old", [⟨"sku", "Sku", "text", true, ""⟩]⟩,
     [⟨1, [("sku", PyVal.vStr "B7")], "t", "t"⟩], 2⟩
    ⟨"cat", [⟨"name", "Name", "text", true, ""⟩]⟩).1 (by decide)

/-! Claim C7. -/

/-- The five logical types of the dynamic type system (the code's tag for
the spec's `integer` is `number`). -/
def validLogicalTypes : List String :=
  ["text", "number", "decimal", "date", "boolean"]

/-- The storage primitive the claim assigns to each logical type
(text→TEXT, integer/number→INTEGER, decimal→REAL, date→TEXT,
boolean→INTEGER); stated from the claim, to be compared against the
source's `_get_sql_type`. -/
def storagePrimitive (dt : String) : String :=
  match dt with
  | "text" => "TEXT"
  | "number" => "INTEGER"
  | "decimal" => "REAL"
  | "date" => "TEXT"
  | "boolean" => "INTEGER"
  | _ => ""

theorem getSqlType_eq_storagePrimitive (dt : String)
    (h : dt ∈ validLogicalTypes) : getSqlType dt = storagePrimitive dt := by
  simp only [validLogicalTypes, List.mem_cons, List.not_mem_nil, or_false]
    at h
  rcases h with rfl | rfl | rfl | rfl | rfl <;> rfl

/-- Claim C7: for every column list over the five logical types, the
generated data-definition statement is exactly: the header, the surrogate
integer primary key line first, then one line per Column Definition in
definition order carrying the claim's storage primitive, a NOT NULL
constraint exactly when `required` is set and a literal DEFAULT clause
exactly when the declared default is non-empty, then the two audit
timestamp lines last. -/
theorem claimC7_theorem (columns : List ColumnDefinition)
    (hvalid : ∀ col ∈ columns, col.data_type ∈ validLogicalTypes) :
    generateTableSql columns = String.intercalate "\n"
      (["CREATE TABLE catalogue_items (",
        "    id INTEGER PRIMARY KEY AUTOINCREMENT,"] ++
       columns.map (fun col =>
         "    " ++ col.name ++ " " ++ storagePrimitive col.data_type ++ " " ++
         (if col.required then "NOT NULL" else "") ++ " " ++
         (if col.default_value ≠ "" then
            "DEFAULT '" ++ col.default_value ++ "'" else "") ++ ",") ++
       ["    created_date TEXT,", "    modified_date TEXT", ")"]) := by
  unfold generateTableSql generateTableSqlLines
  have hmap : List.map columnSqlLine columns =
      List.map (fun col : ColumnDefinition =>
        "    " ++ col.name ++ " " ++ storagePrimitive col.data_type ++ " " ++
        (if col.required then "NOT NULL" else "") ++ " " ++
        (if col.default_value ≠ "" then
           "DEFAULT '" ++ col.default_value ++ "'" else "") ++ ",") columns := by
    refine List.map_congr_left (fun col hmem => ?_)
    unfold columnSqlLine
    rw [getSqlType_eq_storagePrimitive col.data_type (hvalid col hmem)]
  rw [hmap]

/-- Claim C7 witness: the statement generated for a required text column
and an integer column with default "0". -/
theorem claimC7_witness :
    generateTableSql [⟨"name", "Name", "text", true, ""⟩,
                      ⟨"qty", "Qty", "number", false, "0"⟩] =
      String.intercalate "\n"
      (["CREATE TABLE catalogue_items (",
        "    id INTEGER PRIMARY KEY AUTOINCREMENT,"] ++
       [⟨"name", "Name", "text", true, ""⟩,
        ⟨"qty", "Qty", "number", false, "0"⟩].map
         (fun col : ColumnDefinition =>
         "    " ++ col.name ++ " " ++ storagePrimitive col.data_type ++ " " ++
         (if col.required then "NOT NULL" else "") ++ " " ++
         (if col.default_value ≠ "" then
            "DEFAULT '" ++ col.default_value ++ "'" else "") ++ ",") ++
       ["    created_date TEXT,", "    modified_date TEXT", ")"]) :=
  claimC7_theorem [⟨"name", "Name", "text", true, ""⟩,
                   ⟨"qty", "Qty", "number", false, "0"⟩] (by decide)

/-! Claim C4. -/

/-- Claim C4 counterexample: in a Configured catalogue with no text column
and one row, `search("")` returns the empty list while `list_rows` returns
the row — refuting "search with the empty string returns the same set of
rows as list_rows ... including ... catalogues that have no text columns". -/
theorem claimC4_counterexample :
    searchItems
      ⟨some ⟨"cat", [⟨"qty", "Qty", "number", false, ""⟩]⟩,
       [⟨1, [("qty", PyVal.vInt 5)], "t", "t"⟩], 2⟩ "" = [] ∧
    getAllItems
      ⟨some ⟨"cat", [⟨"qty", "Qty", "number", false, ""⟩]⟩,
       [⟨1, [("qty", PyVal.vInt 5)], "t", "t"⟩], 2⟩ =
      [⟨1, [("qty", PyVal.vInt 5)], "t", "t"⟩] := by
  decide

/-- Claim C4 (amended): in the Configured state, `search("")` returns
exactly the rows of `list_rows` having a non-NULL value in at least one
text column (SQL LIKE never matches NULL); when the configuration has no
text column, `search("")` returns the empty list regardless of the rows. -/
theorem claimC4_amended (s : DBState) (config : CatalogueConfig)
    (h : s.catalogue_config = some config) :
    (textColumnNames config ≠ [] →
      searchItems s "" = (getAllItems s).filter (fun row =>
        (textColumnNames config).any (fun cn =>
          decide ((listGet row.values cn).getD PyVal.vNone ≠ PyVal.vNone)))) ∧
    (textColumnNames config = [] → searchItems s "" = []) := by
  constructor
  · intro hne
    simp only [searchItems, getAllItems, h]
    rw [if_neg (by simpa [List.isEmpty_iff] using hne)]
    refine List.filter_congr (fun row _ => ?_)
    refine congrArg (List.any (textColumnNames config)) (funext fun cn => ?_)
    exact sqlLikeContains_empty _
  · intro he
    simp only [searchItems, h]
    rw [if_pos (by simpa [List.isEmpty_iff] using he)]

/-- Claim C4 witness: a catalogue with one text column, where one row's
text value is "Bolt" and another's is NULL — the amended equation
instantiated there. -/
theorem claimC4_witness :
    searchItems
      ⟨some ⟨"cat", [⟨"name", "Name", "text", true, ""⟩]⟩,
       [⟨1, [("name", PyVal.vStr "Bolt")], "t", "t"⟩,
        ⟨2, [("name", PyVal.vNone)], "t", "t"⟩], 3⟩ "" =
      (getAllItems
        ⟨some ⟨"cat", [⟨"name", "Name", "text", true, ""⟩]⟩,
         [⟨1, [("name", PyVal.vStr "Bolt")], "t", "t"⟩,
          ⟨2, [("name", PyVal.vNone)], "t", "t"⟩], 3⟩).filter (fun row =>
        (textColumnNames ⟨"cat", [⟨"name", "Name", "text", true, ""⟩]⟩).any
          (fun cn =>
            decide ((listGet row.values cn).getD PyVal.vNone ≠ PyVal.vNone))) :=
  (claimC4_amended
    ⟨some ⟨"cat", [⟨"name", "Name", "text", true, ""⟩]⟩,
     [⟨1, [("name", PyVal.vStr "Bolt")], "t", "t"⟩,
      ⟨2, [("name", PyVal.vNone)], "t", "t"⟩], 3⟩
    ⟨"cat", [⟨"name", "Name", "text", true, ""⟩]⟩ rfl).1 (by decide)

/-! Claim C8. -/

/-- The per-row effect Claim C8 describes: each stored entry whose key
names a defined column supplied in the partial mapping is replaced by the
coerced value; every other entry is untouched; `modified_date` becomes
`now`; the id and `created_date` are untouched. -/
def updateRowSpec (columns : List ColumnDefinition)
    (item_data : List (String × PyVal)) (now : String) (row : Row) : Row :=
  { id := row.id,
    values := row.values.map (fun kv =>
      match columns.find? (fun c => c.name = kv.1), listGet item_data kv.1 with
      | some col, some raw => (kv.1, convertValue raw col.data_type)
      | _, _ => kv),
    created_date := row.created_date,
    modified_date := now }

theorem listGet_updateSets_not_mem (columns : List ColumnDefinition)
    (item_data : List (String × PyVal)) (k : String)
    (hk : k ∉ columns.map (fun c => c.name)) :
    listGet (updateSets columns item_data) k = none := by
  induction columns with
  | nil => rfl
  | cons c tl ih =>
      simp only [List.map_cons, List.mem_cons, not_or] at hk
      cases hx : listGet item_data c.name with
      | none =>
          simp only [updateSets, List.filterMap_cons, hx, Option.map_none']
          exact ih hk.2
      | some raw =>
          simp only [updateSets, List.filterMap_cons, hx, Option.map_some']
          rw [listGet_cons]
          rw [if_neg (fun h => hk.1 h.symm)]
          exact ih hk.2

theorem listGet_updateSets (columns : List ColumnDefinition)
    (item_data : List (String × PyVal)) (k : String)
    (hnd : (columns.map (fun c => c.name)).Nodup) :
    listGet (updateSets columns item_data) k =
      (match columns.find? (fun c => c.name = k) with
       | some col =>
           (listGet item_data k).map
             (fun raw => convertValue raw col.data_type)
       | none => none) := by
  induction columns with
  | nil => rfl
  | cons c tl ih =>
      simp only [List.map_cons] at hnd
      have hnd' := List.nodup_cons.mp hnd
      by_cases hck : c.name = k
      · rw [List.find?_cons_of_pos _ (by simpa using hck)]
        cases hx : listGet item_data c.name with
        | none =>
            simp only [updateSets, List.filterMap_cons, hx, Option.map_none']
            rw [hck] at hx
            rw [hx, Option.map_none']
            exact listGet_updateSets_not_mem tl item_data k
              (hck ▸ hnd'.1)
        | some raw =>
            simp only [updateSets, List.filterMap_cons, hx, Option.map_some']
            rw [listGet_cons, if_pos hck]
            rw [hck] at hx
            rw [hx, Option.map_some']
      · rw [List.find?_cons_of_neg _ (by simpa using hck)]
        cases hx : listGet item_data c.name with
        | none =>
            simp only [updateSets, List.filterMap_cons, hx, Option.map_none']
            exact ih hnd'.2
        | some raw =>
            simp only [updateSets, List.filterMap_cons, hx, Option.map_some']
            rw [listGet_cons, if_neg hck]
            exact ih hnd'.2

theorem setValues_updateSets (columns : List ColumnDefinition)
    (item_data : List (String × PyVal)) (vals : List (String × PyVal))
    (hnd : (columns.map (fun c => c.name)).Nodup) :
    setValues (updateSets columns item_data) vals =
      vals.map (fun kv =>
        match columns.find? (fun c => c.name = kv.1),
              listGet item_data kv.1 with
        | some col, some raw => (kv.1, convertValue raw col.data_type)
        | _, _ => kv) := by
  unfold setValues
  refine List.map_congr_left (fun kv _ => ?_)
  rw [listGet_updateSets columns item_data kv.1 hnd]
  cases hf : columns.find? (fun c => c.name = kv.1) with
  | none => rfl
  | some col => cases hx : listGet item_data kv.1 <;> rfl

/-- Claim C8: with a Configured store whose column keys are distinct,
`update_item` returns true exactly when some row has the given id; it
replaces each matching row by the claim's per-row update (only supplied
defined columns change, each coerced, plus `modified_date`; id,
`created_date` and all other entries are untouched) and leaves every
other row, the configuration and the id counter unchanged. -/
theorem claimC8_theorem (s : DBState) (config : CatalogueConfig)
    (item_id : Int) (item_data : List (String × PyVal)) (now : String)
    (hcfg : s.catalogue_config = some config)
    (hnd : (config.columns.map (fun c => c.name)).Nodup) :
    ((updateItem s item_id item_data now).1 = true ↔
       ∃ row ∈ s.items, row.id = item_id) ∧
    (updateItem s item_id item_data now).2.catalogue_config =
      s.catalogue_config ∧
    (updateItem s item_id item_data now).2.nextId = s.nextId ∧
    (updateItem s item_id item_data now).2.items =
      s.items.map (fun row =>
        if row.id = item_id then
          updateRowSpec config.columns item_data now row
        else row) := by
  simp only [updateItem, hcfg]
  refine ⟨by simp [List.any_eq_true], by trivial, by trivial, ?_⟩
  refine List.map_congr_left (fun row _ => ?_)
  by_cases hid : row.id = item_id
  · rw [if_pos hid, if_pos hid]
    unfold updateRowSpec
    rw [setValues_updateSets config.columns item_data row.values hnd]
  · rw [if_neg hid, if_neg hid]

/-- Claim C8 witness: updating row 1's `qty` to "7" in a two-row store
returns true and rewrites exactly row 1 via the claimed per-row update. -/
theorem claimC8_witness :
    ((updateItem
      ⟨some ⟨"cat", [⟨"name", "Name", "text", true, ""⟩,
                     ⟨"qty", "Qty", "number", false, ""⟩]⟩,
       [⟨1, [("name", PyVal.vStr "Bolt"), ("qty", PyVal.vInt 5)], "t", "t"⟩,
        ⟨2, [("name", PyVal.vStr "Nut"), ("qty", PyVal.vInt 9)], "t", "t"⟩],
       3⟩ 1 [("qty", PyVal.vStr "7")] "T2").1 = true) ∧
    (updateItem
      ⟨some ⟨"cat", [⟨"name", "Name", "text", true, ""⟩,
                     ⟨"qty", "Qty", "number", false, ""⟩]⟩,
       [⟨1, [("name", PyVal.vStr "Bolt"), ("qty", PyVal.vInt 5)], "t", "t"⟩,
        ⟨2, [("name", PyVal.vStr "Nut"), ("qty", PyVal.vInt 9)], "t", "t"⟩],
       3⟩ 1 [("qty", PyVal.vStr "7")] "T2").2.items =
      [⟨1, [("name", PyVal.vStr "Bolt"), ("qty", PyVal.vInt 5)], "t", "t"⟩,
       ⟨2, [("name", PyVal.vStr "Nut"), ("qty", PyVal.vInt 9)], "t", "t"⟩].map
        (fun row => if row.id = 1 then
          updateRowSpec [⟨"name", "Name", "text", true, ""⟩,
                         ⟨"qty", "Qty", "number", false, ""⟩]
            [("qty", PyVal.vStr "7")] "T2" row
        else row) :=
  ⟨(claimC8_theorem
      ⟨some ⟨"cat", [⟨"name", "Name", "text", true, ""⟩,
                     ⟨"qty", "Qty", "number", false, ""⟩]⟩,
       [⟨1, [("name", PyVal.vStr "Bolt"), ("qty", PyVal.vInt 5)], "t", "t"⟩,
        ⟨2, [("name", PyVal.vStr "Nut"), ("qty", PyVal.vInt 9)], "t", "t"⟩],
       3⟩ ⟨"cat", [⟨"name", "Name", "text", true, ""⟩,
                   ⟨"qty", "Qty", "number", false, ""⟩]⟩
      1 [("qty", PyVal.vStr "7")] "T2" rfl (by decide)).1.mpr
      ⟨⟨1, [("name", PyVal.vStr "Bolt"), ("qty", PyVal.vInt 5)], "t", "t"⟩,
       by decide, rfl⟩,
   (claimC8_theorem
      ⟨some ⟨"cat", [⟨"name", "Name", "text", true, ""⟩,
                     ⟨"qty", "Qty", "number", false, ""⟩]⟩,
       [⟨1, [("name", PyVal.vStr "Bolt"), ("qty", PyVal.vInt 5)], "t", "t"⟩,
        ⟨2, [("name", PyVal.vStr "Nut"), ("qty", PyVal.vInt 9)], "t", "t"⟩],
       3⟩ ⟨"cat", [⟨"name", "Name", "text", true, ""⟩,
                   ⟨"qty", "Qty", "number", false, ""⟩]⟩
      1 [("qty", PyVal.vStr "7")] "T2" rfl (by decide)).2.2.2⟩

/-! Claim C3. -/

/-- The column a header ends up bound to, per the code's actual behaviour:
the LAST Column Definition (in iteration order) whose matched header is
this header — found as the first hit on the reversed column list. -/
def lastMatchName (excelCols : List String)
    (columns : List ColumnDefinition) (h : String) : Option String :=
  (columns.reverse.find?
    (fun c => matchedHeader excelCols c = some h)).map (fun c => c.name)

theorem any_key_eq_isSome {α : Type} (m : List (String × α)) (k : String) :
    m.any (fun p => p.1 = k) = (listGet m k).isSome := by
  induction m with
  | nil => rfl
  | cons p m ih =>
      by_cases hp : p.1 = k <;> simp [listGet_cons, hp, ih]

theorem listGet_replaceAll (m : List (String × String)) (k v k' : String) :
    listGet (m.map (fun p => if p.1 = k then (k, v) else p)) k' =
      if k' = k then (listGet m k').map (fun _ => v) else listGet m k' := by
  induction m with
  | nil => by_cases h : k' = k <;> simp [listGet, h]
  | cons p m ih =>
      by_cases hp : p.1 = k <;> by_cases hk : k' = k
      · subst hk
        simp [listGet_cons, hp, ih]
      · have hkk : k ≠ k' := fun h => hk h.symm
        simp [listGet_cons, hp, hk, hkk, ih]
      · subst hk
        simp [listGet_cons, hp, ih]
      · simp [listGet_cons, hp, hk, ih]

theorem listGet_dictInsert (m : List (String × String)) (k v k' : String) :
    listGet (dictInsert m k v) k' =
      if k' = k then some v else listGet m k' := by
  unfold dictInsert
  by_cases hany : m.any (fun p => p.1 = k)
  · rw [if_pos hany, listGet_replaceAll]
    by_cases hk : k' = k
    · rw [if_pos hk, if_pos hk]
      rw [any_key_eq_isSome] at hany
      obtain ⟨w, hw⟩ := Option.isSome_iff_exists.mp hany
      rw [hk, hw]
      rfl
    · rw [if_neg hk, if_neg hk]
  · rw [if_neg hany]
    have hnone : listGet m k = none := by
      cases hx : listGet m k with
      | none => rfl
      | some w =>
          rw [any_key_eq_isSome, hx] at hany
          simp at hany
    unfold listGet at hnone ⊢
    rw [List.find?_append]
    by_cases hk : k' = k
    · subst hk
      rw [Option.map_eq_none'.mp hnone]
      rw [List.find?_cons_of_pos _ (by simp), if_pos rfl]
      rfl
    · rw [if_neg hk,
        List.find?_cons_of_neg _
          (by simp only [decide_eq_true_eq]; exact fun h => hk h.symm)]
      rw [List.find?_nil]
      cases m.find? (fun p => p.1 = k') <;> rfl

theorem dictInsert_keys (m : List (String × String)) (k v : String) :
    (dictInsert m k v).map (fun p => p.1) =
      if m.any (fun p => p.1 = k) then m.map (fun p => p.1)
      else m.map (fun p => p.1) ++ [k] := by
  unfold dictInsert
  by_cases hany : m.any (fun p => p.1 = k)
  · rw [if_pos hany, if_pos hany, List.map_map]
    refine List.map_congr_left (fun p _ => ?_)
    by_cases hp : p.1 = k <;> simp [hp]
  · rw [if_neg hany, if_neg hany, List.map_append]
    rfl

theorem dictInsert_keys_nodup (m : List (String × String)) (k v : String)
    (hnd : (m.map (fun p => p.1)).Nodup) :
    ((dictInsert m k v).map (fun p => p.1)).Nodup := by
  rw [dictInsert_keys]
  by_cases hany : m.any (fun p => p.1 = k)
  · rw [if_pos hany]
    exact hnd
  · rw [if_neg hany]
    have hk : k ∉ m.map (fun p => p.1) := by
      intro hmem
      obtain ⟨p, hp, hpk⟩ := List.mem_map.mp hmem
      exact hany (List.any_eq_true.mpr ⟨p, hp, by simp [hpk]⟩)
    simp [List.nodup_append, hnd, hk]

theorem foldl_mapping_keys_nodup (excelCols : List String) :
    ∀ (columns : List ColumnDefinition)
      (acc : List (String × String) × List String),
    (acc.1.map (fun p => p.1)).Nodup →
    (((columns.foldl (mappingStep excelCols) acc).1).map
      (fun p => p.1)).Nodup := by
  intro columns
  induction columns with
  | nil => exact fun acc h => h
  | cons col tl ih =>
      intro acc h
      rw [List.foldl_cons]
      refine ih _ ?_
      unfold mappingStep
      cases hm : matchedHeader excelCols col with
      | none => exact h
      | some ec => exact dictInsert_keys_nodup _ _ _ h

theorem foldl_mapping_lookup (excelCols : List String) (h : String) :
    ∀ (columns : List ColumnDefinition)
      (acc : List (String × String) × List String),
    listGet ((columns.foldl (mappingStep excelCols) acc).1) h =
      (match columns.reverse.find?
          (fun c => matchedHeader excelCols c = some h) with
       | some c => some c.name
       | none => listGet acc.1 h) := by
  intro columns
  induction columns with
  | nil => intro acc; rfl
  | cons col tl ih =>
      intro acc
      rw [List.foldl_cons, ih, List.reverse_cons, List.find?_append]
      cases hf : tl.reverse.find?
          (fun c => matchedHeader excelCols c = some h) with
      | some c => rfl
      | none =>
          show listGet (mappingStep excelCols acc col).1 h = _
          unfold mappingStep
          cases hm : matchedHeader excelCols col with
          | none =>
              rw [List.find?_cons_of_neg _ (by simp [hm]), List.find?_nil]
              rfl
          | some ec =>
              show listGet (dictInsert acc.1 ec col.name) h = _
              rw [listGet_dictInsert]
              by_cases he : h = ec
              · rw [if_pos he,
                  List.find?_cons_of_pos _ (by simp [hm, he])]
                rfl
              · rw [if_neg he,
                  List.find?_cons_of_neg _
                    (by simp [hm]; exact fun hh => he hh.symm),
                  List.find?_nil]
                rfl

theorem foldl_mapping_unmapped (excelCols : List String) :
    ∀ (columns : List ColumnDefinition)
      (acc : List (String × String) × List String),
    (columns.foldl (mappingStep excelCols) acc).2 =
      acc.2 ++ (columns.filter
        (fun c => (matchedHeader excelCols c).isNone)).map
        (fun c => c.display_name) := by
  intro columns
  induction columns with
  | nil => intro acc; simp
  | cons col tl ih =>
      intro acc
      rw [List.foldl_cons, ih]
      unfold mappingStep
      cases hm : matchedHeader excelCols col with
      | none => simp [List.filter_cons, hm]
      | some ec => simp [List.filter_cons, hm]

/-- Claim C3 counterexample: with Column Definitions labelled "Cost" then
"Cost per Unit" and the single external header "Cost", the first
definition exact-matches "Cost", but the second definition's substring
match then OVERWRITES the binding: the final mapping assigns the already
consumed header "Cost" to `cost_per_unit`, displacing the earlier
definition's match — refuting "once a header is consumed an earlier
Column Definition's match is never displaced by a later one". -/
theorem claimC3_counterexample :
    (buildColumnMapping ["Cost"]
      [⟨"cost", "Cost", "number", false, ""⟩]).1 = [("Cost", "cost")] ∧
    (buildColumnMapping ["Cost"]
      [⟨"cost", "Cost", "number", false, ""⟩,
       ⟨"cost_per_unit", "Cost per Unit", "number", false, ""⟩]).1 =
      [("Cost", "cost_per_unit")] := by
  decide

/-- Claim C3 (amended): each Column Definition is tried in order, exact
case-insensitive label equality first then case-insensitive substring
containment either direction, and the final mapping never assigns one
external header to two Column Definitions (its header keys are distinct);
but headers are NOT permanently consumed: the definition bound to a header
is the LAST one in iteration order whose matched header is that header
(a later match displaces an earlier one), and the definitions matching no
header are reported unmapped, in order. -/
theorem claimC3_amended (excelCols : List String)
    (columns : List ColumnDefinition) :
    ((buildColumnMapping excelCols columns).1.map (fun p => p.1)).Nodup ∧
    (∀ h : String, listGet (buildColumnMapping excelCols columns).1 h =
      lastMatchName excelCols columns h) ∧
    (buildColumnMapping excelCols columns).2 =
      (columns.filter (fun c => (matchedHeader excelCols c).isNone)).map
        (fun c => c.display_name) := by
  refine ⟨foldl_mapping_keys_nodup excelCols columns ([], []) (by simp),
    fun h => ?_, by simpa using foldl_mapping_unmapped excelCols columns ([], [])⟩
  rw [buildColumnMapping, foldl_mapping_lookup excelCols h columns ([], [])]
  unfold lastMatchName
  cases columns.reverse.find? (fun c => matchedHeader excelCols c = some h) <;>
    rfl

end Catalogue
